import Mathlib

/-!
Shallow embedding of the feedback-system backend
(`app/ai_processor.py`, `app/websocket_manager.py`, `app/main.py`)
and verification of its specification claims.

Machine floats of the source are modelled as rationals; wall-clock
`time.time()` values are threaded as explicit rational parameters; Python
dicts become association lists that preserve insertion order; websocket
handles are natural numbers and an explicit `live` predicate tells whether
a send to a handle succeeds or raises.
-/

namespace Feedback

/-- Thresholds from `AttentionAnalyzer.__init__`. -/
def DROWSY_EYE_THRESHOLD : ℚ := 18 / 100

def DROWSY_TIME_THRESHOLD : ℚ := 5 / 2

def HEAD_TURN_THRESHOLD_YAW : ℚ := 25

def HEAD_TURN_THRESHOLD_PITCH : ℚ := 20

def GAZE_THRESHOLD : ℚ := 25 / 100

def ALERT_COOLDOWN : ℚ := 10

def NO_MOVEMENT_THRESHOLD : ℚ := 60

def MOVEMENT_SENSITIVITY : ℚ := 3 / 100

/-- A feature frame (`landmark_data` dict).  Each field is optional;
`analyze_attention` reads it with `dict.get` defaults (ear 1.0, nose 0.5).
A frame value of `none` at the call site stands for a falsy or non-dict
`landmark_data` (Python `None`, empty dict, wrong type). -/
structure Frame where
  ear : Option ℚ
  nose_x : Option ℚ
  nose_y : Option ℚ
deriving DecidableEq

/-- Per-student tracking state (`self.student_states[student_id]`). -/
structure StudentState where
  eyes_closed_start : Option ℚ
  last_movement_time : ℚ
  last_position : Option (ℚ × ℚ × ℚ)
  consecutive_no_face : ℕ
deriving DecidableEq

/-- Fresh per-student state created on first sight of the student. -/
def initState (current_time : ℚ) : StudentState :=
  ⟨none, current_time, none, 0⟩

/-- The `analysis` dict returned by `analyze_attention`.  Missing keys are
read back by `generate_alert` with `dict.get` defaults, which the field
defaults mirror. -/
structure Analysis where
  reason : String := "unknown"
  duration : ℚ := 0
  ear : ℚ := 1
  yaw : ℚ := 0
  pitch : ℚ := 0
  gaze_x : ℚ := 0
  gaze_y : ℚ := 0
deriving DecidableEq

/-- Result of one `analyze_attention` call: the returned triple plus the
updated per-student state. -/
structure AnalyzeResult where
  status : String
  confidence : ℚ
  analysis : Analysis
  state : StudentState
deriving DecidableEq

/-- Tail of `analyze_attention` (source lines 160-174): the no-movement
check followed by the attentive default. -/
def analyzeTail (st : StudentState) (current_time ear yaw pitch : ℚ) : AnalyzeResult :=
  let time_since_movement := current_time - st.last_movement_time
  if NO_MOVEMENT_THRESHOLD < time_since_movement then
    ⟨"looking_away", 7 / 10, { reason := "no_movement", duration := time_since_movement }, st⟩
  else
    ⟨"attentive", 1, { reason := "attentive", ear := ear, yaw := yaw, pitch := pitch }, st⟩

/-- Embedding of `AttentionAnalyzer.analyze_attention` with the per-student state
threaded explicitly (the source keeps it in `self.student_states`,
keyed by `student_id`; a fresh key starts from `initState`). -/
def analyze_attention (st : StudentState) (landmark_data : Option Frame)
    (current_time : ℚ) : AnalyzeResult :=
  match landmark_data with
  | none =>
    let st1 : StudentState := { st with consecutive_no_face := st.consecutive_no_face + 1 }
    if 3 ≤ st1.consecutive_no_face then
      ⟨"no_face", 0, { reason := "No face detected" }, st1⟩
    else
      ⟨"attentive", 1 / 2, { reason := "Temporary detection loss" }, st1⟩
  | some f =>
    let st1 : StudentState := { st with consecutive_no_face := 0 }
    let ear := f.ear.getD 1
    let nose_x := f.nose_x.getD (1 / 2)
    let nose_y := f.nose_y.getD (1 / 2)
    let yaw := (nose_x - 1 / 2) * 60
    let pitch := (nose_y - 1 / 2) * 40
    let new_movement_time : ℚ :=
      match st1.last_position with
      | some lp =>
        let movement := |nose_x - lp.1| + |nose_y - lp.2.1| + |ear - lp.2.2|
        if MOVEMENT_SENSITIVITY < movement then current_time else st1.last_movement_time
      | none => st1.last_movement_time
    let st2 : StudentState :=
      { st1 with last_movement_time := new_movement_time,
                 last_position := some (nose_x, nose_y, ear) }
    if HEAD_TURN_THRESHOLD_YAW < |yaw| ∨ HEAD_TURN_THRESHOLD_PITCH < |pitch| then
      ⟨"looking_away", 9 / 10, { reason := "head_turned", yaw := yaw, pitch := pitch },
        { st2 with eyes_closed_start := none }⟩
    else if GAZE_THRESHOLD < |nose_x - 1 / 2| ∨ GAZE_THRESHOLD < |nose_y - 1 / 2| then
      ⟨"looking_away", 85 / 100, { reason := "gaze_away", gaze_x := nose_x, gaze_y := nose_y },
        { st2 with eyes_closed_start := none }⟩
    else if ear < DROWSY_EYE_THRESHOLD then
      let st3 : StudentState :=
        if st2.eyes_closed_start = none then
          { st2 with eyes_closed_start := some current_time }
        else st2
      let eyes_closed_duration := current_time - st3.eyes_closed_start.getD current_time
      if DROWSY_TIME_THRESHOLD ≤ eyes_closed_duration then
        ⟨"drowsy", 95 / 100,
          { reason := "eyes_closed", duration := eyes_closed_duration, ear := ear }, st3⟩
      else
        analyzeTail st3 current_time ear yaw pitch
    else
      analyzeTail { st2 with eyes_closed_start := none } current_time ear yaw pitch

/-- An alert dict built by `generate_alert`. -/
structure AlertData where
  alert_type : String
  severity : String
  message : String
deriving DecidableEq

/-- Association-list lookup, modelling Python dict read (`m[k]`, `k in m`). -/
def lookupL {κ α : Type} [DecidableEq κ] : List (κ × α) → κ → Option α
  | [], _ => none
  | (k1, v) :: rest, k => if k1 = k then some v else lookupL rest k

/-- Association-list write, modelling Python dict assignment `m[k] = v`
(replaces in place, else appends, preserving insertion order). -/
def insertL {κ α : Type} [DecidableEq κ] : List (κ × α) → κ → α → List (κ × α)
  | [], k, v => [(k, v)]
  | (k1, v1) :: rest, k, v =>
    if k1 = k then (k1, v) :: rest else (k1, v1) :: insertL rest k v

/-- Association-list delete, modelling Python `del m[k]`.  Reachable
manager dicts never hold a key twice, so removing every occurrence agrees
with Python on them. -/
def eraseL {κ α : Type} [DecidableEq κ] : List (κ × α) → κ → List (κ × α)
  | [], _ => []
  | (k1, v1) :: rest, k => if k1 = k then eraseL rest k else (k1, v1) :: eraseL rest k

/-- Alert construction and cooldown bookkeeping after suppression checks
pass (`generate_alert`, source lines 201-238). -/
def emitAlert (last_alert_time : List (String × ℚ)) (alert_key student_name status : String)
    (analysis : Analysis) (current_time : ℚ) : Option AlertData × List (String × ℚ) :=
  let m1 := insertL last_alert_time alert_key current_time
  let ad : AlertData :=
    if status = "looking_away" then
      if analysis.reason = "head_turned" then
        ⟨status, "medium", student_name ++ " turned head away (Yaw: " ++ toString analysis.yaw
          ++ ", Pitch: " ++ toString analysis.pitch ++ ")"⟩
      else if analysis.reason = "gaze_away" then
        ⟨status, "medium", student_name ++ " is looking away from screen"⟩
      else if analysis.reason = "no_movement" then
        ⟨status, "high", student_name ++ " - No movement for " ++ toString analysis.duration ++ "s"⟩
      else
        ⟨status, "medium", student_name ++ " is not looking at screen"⟩
    else if status = "drowsy" then
      ⟨status, "high", student_name ++ " appears drowsy (eyes closed "
        ++ toString analysis.duration ++ "s)"⟩
    else if status = "no_face" then
      ⟨status, "high", student_name ++ " - Camera not detecting face"⟩
    else
      ⟨status, "medium", ""⟩
  (some ad, m1)

/-- Embedding of `AttentionAnalyzer.generate_alert` with the `self.last_alert_time`
dict threaded explicitly. -/
def generate_alert (last_alert_time : List (String × ℚ)) (student_id student_name status : String)
    (analysis : Analysis) (current_time : ℚ) : Option AlertData × List (String × ℚ) :=
  if status = "attentive" then
    (none, last_alert_time)
  else
    let alert_key := student_id ++ "_" ++ status
    match lookupL last_alert_time alert_key with
    | some t0 =>
      if current_time - t0 < ALERT_COOLDOWN then (none, last_alert_time)
      else emitAlert last_alert_time alert_key student_name status analysis current_time
    | none => emitAlert last_alert_time alert_key student_name status analysis current_time

/-- One student entry of `rooms_students_info` (`connect_student`). -/
structure StudentInfo where
  id : String
  name : String
  status : String
  last_update : ℚ
  alerts_count : ℕ
deriving DecidableEq

/-- Messages sent over websockets, restricted to the payload parts the
specification observes. -/
inductive Msg where
  | room_closed (text : String)
  | room_created (room_id : String) (students : List StudentInfo)
  | errorMsg (text : String)
  | student_join (sid sname : String)
  | student_leave (sid sname : String)
  | attention_update (sid sname : String) (status : Option String) (confidence : ℚ)
  | alert (sid sname alert_type text severity : String)
  | clear_alert (sid : String)
  | participant_list
  | other (tag : String)
deriving DecidableEq

/-- Observable transport effects of a handler run. -/
inductive Event where
  | accept (ws : ℕ)
  | send (ws : ℕ) (m : Msg)
  | close (ws : ℕ) (code : ℕ)
deriving DecidableEq

/-- The mutable fields of `ConnectionManager.__init__`.  Websocket handles
are naturals; the dicts become insertion-ordered association lists. -/
structure ManagerState where
  rooms_students : List (String × List (String × ℕ))
  rooms_teachers : List (String × List ℕ)
  rooms_students_info : List (String × List (String × StudentInfo))
  teacher_rooms : List (ℕ × String)
  teacher_names : List (ℕ × String)
deriving DecidableEq

/-- A manager with no rooms and no connections. -/
def emptyManager : ManagerState := ⟨[], [], [], [], []⟩

/-- Result of a Python call that can fall out with an uncaught exception.
`exn name a` records the exception class and the mutations that had
already been applied when the exception was raised. -/
inductive PyResult (α : Type) where
  | ok : α → PyResult α
  | exn : String → α → PyResult α
deriving DecidableEq

/-- Embedding of `ConnectionManager.room_exists`. -/
def room_exists (st : ManagerState) (room_id : String) : Bool :=
  match lookupL st.rooms_teachers room_id with
  | some ts => 0 < ts.length
  | none => false

/-- Embedding of `ConnectionManager.disconnect_teacher` (the second definition in the
source file, which overrides the first).  `live ws = false` means a send
to `ws` raises, so the `try` around the room-closed notification swallows
it and the subsequent `close` is skipped. -/
def disconnect_teacher (st : ManagerState) (live : ℕ → Bool) (ws : ℕ) :
    ManagerState × List Event :=
  let st1ev :=
    match lookupL st.teacher_rooms ws with
    | none => (st, ([] : List Event))
    | some room_id =>
      if room_id = "" then (st, [])
      else
        match lookupL st.rooms_teachers room_id with
        | none => (st, [])
        | some ts =>
          let ts1 := if ws ∈ ts then ts.erase ws else ts
          if ts1.length = 0 then
            let studs := (lookupL st.rooms_students room_id).getD []
            let evs := studs.flatMap fun p =>
              if live p.2 then
                [Event.send p.2 (Msg.room_closed "Teacher ended the class"),
                 Event.close p.2 4003]
              else []
            ({ st with rooms_teachers := eraseL st.rooms_teachers room_id,
                       rooms_students := eraseL st.rooms_students room_id,
                       rooms_students_info := eraseL st.rooms_students_info room_id }, evs)
          else
            ({ st with rooms_teachers := insertL st.rooms_teachers room_id ts1 }, [])
  let st2 := st1ev.1
  ({ st2 with teacher_rooms := eraseL st2.teacher_rooms ws,
              teacher_names := eraseL st2.teacher_names ws }, st1ev.2)

/-- Embedding of `ConnectionManager.broadcast_to_room_teachers`: send to every teacher
of the room, collect the handles whose send raised, then run the explicit
disconnect path on each of them. -/
def broadcast_to_room_teachers (st : ManagerState) (live : ℕ → Bool) (room_id : String)
    (m : Msg) : ManagerState × List Event :=
  match lookupL st.rooms_teachers room_id with
  | none => (st, [])
  | some ts =>
    let sends := (ts.filter fun w => live w).map fun w => Event.send w m
    let disconnected := ts.filter fun w => !live w
    let cleanup := disconnected.foldl
      (fun (acc : ManagerState × List Event) w =>
        let r := disconnect_teacher acc.1 live w
        (r.1, acc.2 ++ r.2))
      (st, [])
    (cleanup.1, sends ++ cleanup.2)

mutual

/-- Embedding of `ConnectionManager.broadcast_to_room_students`.  The mutual recursion
with `disconnect_student` (a failed send evicts the student, which in turn
broadcasts a leave notice) is bounded by explicit fuel; every claim below
is settled on the fuel-sufficient branch. -/
def broadcast_to_room_students (fuel : ℕ) (st : ManagerState) (live : ℕ → Bool)
    (room_id : String) (m : Msg) (exclude_id : Option String) (now : ℚ) :
    ManagerState × List Event :=
  match fuel with
  | 0 => (st, [])
  | fuel + 1 =>
    match lookupL st.rooms_students room_id with
    | none => (st, [])
    | some studs =>
      let targets := studs.filter fun p => decide (exclude_id ≠ some p.1)
      let sends := (targets.filter fun p => live p.2).map fun p => Event.send p.2 m
      let disconnected := (targets.filter fun p => !live p.2).map fun p => p.1
      let cleanup := disconnected.foldl
        (fun (acc : ManagerState × List Event) sid =>
          let r := disconnect_student fuel acc.1 live room_id sid now
          (r.1, acc.2 ++ r.2))
        (st, [])
      (cleanup.1, sends ++ cleanup.2)

/-- Embedding of `ConnectionManager.disconnect_student`. -/
def disconnect_student (fuel : ℕ) (st : ManagerState) (live : ℕ → Bool)
    (room_id student_id : String) (now : ℚ) : ManagerState × List Event :=
  match fuel with
  | 0 => (st, [])
  | fuel + 1 =>
    let st1 :=
      match lookupL st.rooms_students room_id with
      | some studs =>
        if (lookupL studs student_id).isSome then
          { st with rooms_students :=
              insertL st.rooms_students room_id (eraseL studs student_id) }
        else st
      | none => st
    let student_name :=
      match lookupL st1.rooms_students_info room_id with
      | some infos =>
        match lookupL infos student_id with
        | some info => info.name
        | none => "Unknown"
      | none => "Unknown"
    let st2 :=
      match lookupL st1.rooms_students_info room_id with
      | some infos =>
        if (lookupL infos student_id).isSome then
          { st1 with rooms_students_info :=
              insertL st1.rooms_students_info room_id (eraseL infos student_id) }
        else st1
      | none => st1
    let leave := Msg.student_leave student_id student_name
    let r1 := broadcast_to_room_students fuel st2 live room_id leave none now
    let r2 := broadcast_to_room_teachers r1.1 live room_id leave
    (r2.1, r1.2 ++ r2.2)

end

/-- Embedding of `ConnectionManager.connect_student`: accept, check the room, register
the student, then notify students and teachers of the join.  Returns the
boolean success flag of the source alongside state and events. -/
def connect_student (fuel : ℕ) (st : ManagerState) (live : ℕ → Bool) (ws : ℕ)
    (room_id student_id student_name : String) (now : ℚ) :
    ManagerState × List Event × Bool :=
  match lookupL st.rooms_students room_id with
  | none => (st, [Event.accept ws], false)
  | some studs =>
    let info : StudentInfo := ⟨student_id, student_name, "attentive", now, 0⟩
    let st1 : ManagerState :=
      { st with rooms_students := insertL st.rooms_students room_id
                  (insertL studs student_id ws),
                rooms_students_info := insertL st.rooms_students_info room_id
                  (insertL ((lookupL st.rooms_students_info room_id).getD []) student_id info) }
    let join := Msg.student_join student_id student_name
    let r1 := broadcast_to_room_students fuel st1 live room_id join none now
    let r2 := broadcast_to_room_teachers r1.1 live room_id join
    (r2.1, Event.accept ws :: (r1.2 ++ r2.2), true)

/-- Embedding of `ConnectionManager.update_student_attention`: the snapshot write is
existence-checked, but the broadcast payload then reads
`rooms_students_info[room_id][student_id]["name"]` unguarded, so a missing
room or participant raises `KeyError` there. -/
def update_student_attention (st : ManagerState) (live : ℕ → Bool)
    (room_id student_id : String) (status : Option String) (confidence : ℚ) (now : ℚ) :
    PyResult (ManagerState × List Event) :=
  let st1 :=
    match lookupL st.rooms_students_info room_id with
    | some infos =>
      match lookupL infos student_id with
      | some info =>
        { st with rooms_students_info := (insertL st.rooms_students_info room_id
            (insertL infos student_id
              { info with status := status.getD "attentive", last_update := now })) }
      | none => st
    | none => st
  match lookupL st1.rooms_students_info room_id with
  | none => PyResult.exn "KeyError" (st1, [])
  | some infos =>
    match lookupL infos student_id with
    | none => PyResult.exn "KeyError" (st1, [])
    | some info =>
      let r := broadcast_to_room_teachers st1 live room_id
        (Msg.attention_update student_id info.name status confidence)
      PyResult.ok (r.1, r.2)

/-- The room-code alphabet (`string.ascii_uppercase + string.digits`). -/
def codeAlphabet : List Char := "ABCDEFGHIJKLMNOPQRSTUVWXYZ0123456789".toList

/-- The `k`-th 6-character candidate drawn from the random source `seed`
(`secrets.choice` picks one alphabet index per drawn character). -/
def candidateCode (seed : ℕ → Fin 36) (k : ℕ) : String :=
  String.mk ((List.range 6).map fun j =>
    codeAlphabet.get (Fin.cast (by decide) (seed (6 * k + j))))

/-- Embedding of `ConnectionManager.generate_room_id`: draw candidates until one is not
an active room code.  The `while` loop of the source is bounded by fuel; the
draw-until-fresh behaviour holds whenever some candidate within fuel is
fresh. -/
def genLoop (rooms : List (String × List ℕ)) (seed : ℕ → Fin 36) : ℕ → ℕ → String
  | k, 0 => candidateCode seed k
  | k, fuel + 1 =>
    let c := candidateCode seed k
    if (lookupL rooms c).isSome then genLoop rooms seed (k + 1) fuel else c

/-- Entry point of `generate_room_id`. -/
def generate_room_id (st : ManagerState) (seed : ℕ → Fin 36) (fuel : ℕ) : String :=
  genLoop st.rooms_teachers seed 0 fuel

/-- Connection phase of the `student_websocket` endpoint (`main.py` lines
73-111): reject unknown rooms with a structured error and close code 4004,
otherwise run `connect_student` and send the participant list.  The
returned boolean is true when the handler proceeds to its message loop. -/
def student_endpoint_join (fuel : ℕ) (st : ManagerState) (live : ℕ → Bool) (ws : ℕ)
    (room_id student_id sname : String) (now : ℚ) : ManagerState × List Event × Bool :=
  if !room_exists st room_id then
    (st, [Event.accept ws,
          Event.send ws (Msg.errorMsg
            ("Room " ++ room_id ++ " does not exist. Please check the room code.")),
          Event.close ws 4004], false)
  else
    let r := connect_student fuel st live ws room_id student_id sname now
    if !r.2.2 then (r.1, r.2.1, false)
    else (r.1, r.2.1 ++ [Event.send ws Msg.participant_list], true)

/-- Connection phase of the `teacher_websocket` endpoint (`main.py` lines
243-288).  Joining an existing room succeeds and sends `room_created`;
the create-new-room branch assigns into `manager.room_ids`, an attribute
`ConnectionManager.__init__` never defines, so after generating the code
and installing the three room maps it raises `AttributeError` and the
`room_created` send is never reached. -/
def teacherCreateRoomBranch (st : ManagerState) (ws : ℕ) (seed : ℕ → Fin 36) (fuel : ℕ) :
    PyResult (ManagerState × List Event) :=
  let c := generate_room_id st seed fuel
  let st1 : ManagerState :=
    { st with rooms_teachers := insertL st.rooms_teachers c [ws],
              rooms_students := insertL st.rooms_students c [],
              rooms_students_info := insertL st.rooms_students_info c [] }
  PyResult.exn "AttributeError" (st1, [Event.accept ws])

/-- Dispatch of `teacher_endpoint_connect`: the Python guard is
`if room_id and room_id in manager.rooms_teachers` (an empty string is
falsy), else the create branch above runs and raises. -/
def teacher_endpoint_connect (st : ManagerState) (room_id : Option String) (tname : String)
    (ws : ℕ) (seed : ℕ → Fin 36) (fuel : ℕ) :
    PyResult (ManagerState × List Event) :=
  match room_id with
  | some r =>
    if r ≠ "" ∧ (lookupL st.rooms_teachers r).isSome = true then
      let ts := (lookupL st.rooms_teachers r).getD []
      let st1 : ManagerState :=
        { st with rooms_teachers := insertL st.rooms_teachers r (ts ++ [ws]),
                  teacher_rooms := insertL st.teacher_rooms ws r,
                  teacher_names := insertL st.teacher_names ws tname }
      let roster := ((lookupL st1.rooms_students_info r).getD []).map fun p => p.2
      PyResult.ok (st1, [Event.accept ws, Event.send ws (Msg.room_created r roster)])
    else teacherCreateRoomBranch st ws seed fuel
  | none => teacherCreateRoomBranch st ws seed fuel

/-- EAR value a frame contributes (`landmark_data.get` default 1.0). -/
def earOf (f : Frame) : ℚ := f.ear.getD 1

/-- Head pose and gaze of the frame are within their thresholds, so
neither looking-away rule of `analyze_attention` fires. -/
def inBounds (f : Frame) : Prop :=
  |(f.nose_x.getD (1 / 2) - 1 / 2) * 60| ≤ HEAD_TURN_THRESHOLD_YAW ∧
  |(f.nose_y.getD (1 / 2) - 1 / 2) * 40| ≤ HEAD_TURN_THRESHOLD_PITCH ∧
  |f.nose_x.getD (1 / 2) - 1 / 2| ≤ GAZE_THRESHOLD ∧
  |f.nose_y.getD (1 / 2) - 1 / 2| ≤ GAZE_THRESHOLD

instance (f : Frame) : Decidable (inBounds f) := by
  unfold inBounds; infer_instance

/-- Per-student state after the first `i` frames of a frame stream have
been processed (`fr k` at clock time `ts k`). -/
def stateAfterA (fr : ℕ → Frame) (ts : ℕ → ℚ) (st0 : StudentState) : ℕ → StudentState
  | 0 => st0
  | i + 1 => (analyze_attention (stateAfterA fr ts st0 i) (some (fr i)) (ts i)).state

/-- Status reported for frame `i` of the stream. -/
def statusAtA (fr : ℕ → Frame) (ts : ℕ → ℚ) (st0 : StudentState) (i : ℕ) : String :=
  (analyze_attention (stateAfterA fr ts st0 i) (some (fr i)) (ts i)).status

/-- Specification-side eye-closure timer: the value `eyes_closed_start`
must hold before frame `i` when the stream stays within pose and gaze
bounds — the start time of the current contiguous run of sub-threshold
EAR frames, or `none` when the last frame had open eyes. -/
def runTimer (fr : ℕ → Frame) (ts : ℕ → ℚ) : ℕ → Option ℚ
  | 0 => none
  | i + 1 =>
    if earOf (fr i) < DROWSY_EYE_THRESHOLD then
      some ((runTimer fr ts i).getD (ts i))
    else none

/-- The `last_movement_time` value `analyze_attention` stores for a frame
(equal to the frame time when the frame moved significantly, else
unchanged). -/
def postMovementTime (st : StudentState) (f : Frame) (t : ℚ) : ℚ :=
  match st.last_position with
  | some lp =>
    if MOVEMENT_SENSITIVITY <
        |f.nose_x.getD (1 / 2) - lp.1| + |f.nose_y.getD (1 / 2) - lp.2.1|
          + |f.ear.getD 1 - lp.2.2| then t
    else st.last_movement_time
  | none => st.last_movement_time

/-- The `last_position` value `analyze_attention` stores for a frame. -/
def postPosition (f : Frame) : ℚ × ℚ × ℚ :=
  (f.nose_x.getD (1 / 2), f.nose_y.getD (1 / 2), f.ear.getD 1)

/-- One `generate_alert` invocation of a processing trace. -/
structure AlertCall where
  sid : String
  sname : String
  status : String
  analysis : Analysis
  time : ℚ
deriving DecidableEq

/-- Sequential `generate_alert` calls threading `last_alert_time`,
returning the per-call outputs and the final map. -/
def runAlerts (m : List (String × ℚ)) :
    List AlertCall → List (Option AlertData) × List (String × ℚ)
  | [] => ([], m)
  | c :: rest =>
    let r := generate_alert m c.sid c.sname c.status c.analysis c.time
    let rr := runAlerts r.2 rest
    (r.1 :: rr.1, rr.2)

/-! Association-list facts used throughout the proofs. -/

theorem lookupL_insertL_self {κ α : Type} [DecidableEq κ] (m : List (κ × α)) (k : κ) (v : α) :
    lookupL (insertL m k v) k = some v := by
  induction m with
  | nil => simp [insertL, lookupL]
  | cons hd tl ih =>
    obtain ⟨k1, v1⟩ := hd
    by_cases h : k1 = k
    · simp [insertL, lookupL, h]
    · simp [insertL, lookupL, h, ih]

theorem lookupL_insertL_ne {κ α : Type} [DecidableEq κ] (m : List (κ × α)) (k k1 : κ) (v : α)
    (h : k1 ≠ k) : lookupL (insertL m k v) k1 = lookupL m k1 := by
  induction m with
  | nil => simp [insertL, lookupL, Ne.symm h]
  | cons hd tl ih =>
    obtain ⟨k2, v2⟩ := hd
    by_cases h2 : k2 = k
    · subst h2
      simp [insertL, lookupL, Ne.symm h]
    · by_cases h3 : k2 = k1
      · subst h3
        simp [insertL, lookupL, h2]
      · simp [insertL, lookupL, h2, h3, ih]

theorem lookupL_eraseL_self {κ α : Type} [DecidableEq κ] (m : List (κ × α)) (k : κ) :
    lookupL (eraseL m k) k = none := by
  induction m with
  | nil => simp [eraseL, lookupL]
  | cons hd tl ih =>
    obtain ⟨k1, v1⟩ := hd
    by_cases h : k1 = k <;> simp [eraseL, lookupL, h, ih]

/-! Characterizations of `analyze_attention` on pose-and-gaze-in-bounds
frames, used by the movement and drowsiness claims. -/

theorem analyzeTail_state (st : StudentState) (t e y p : ℚ) :
    (analyzeTail st t e y p).state = st := by
  by_cases h : NO_MOVEMENT_THRESHOLD < t - st.last_movement_time <;>
    simp [analyzeTail, h]

theorem analyzeTail_status (st : StudentState) (t e y p : ℚ) :
    (analyzeTail st t e y p).status =
      if NO_MOVEMENT_THRESHOLD < t - st.last_movement_time then "looking_away"
      else "attentive" := by
  by_cases h : NO_MOVEMENT_THRESHOLD < t - st.last_movement_time <;>
    simp [analyzeTail, h]

theorem analyzeTail_reason (st : StudentState) (t e y p : ℚ) :
    (analyzeTail st t e y p).analysis.reason =
      if NO_MOVEMENT_THRESHOLD < t - st.last_movement_time then "no_movement"
      else "attentive" := by
  by_cases h : NO_MOVEMENT_THRESHOLD < t - st.last_movement_time <;>
    simp [analyzeTail, h]

/-- On an in-bounds frame with EAR not below the drowsy threshold,
`analyze_attention` clears the timer, applies the movement update and
runs the no-movement tail. -/
theorem analyze_inbounds_open (st : StudentState) (f : Frame) (t : ℚ)
    (hb : inBounds f) (hear : ¬ earOf f < DROWSY_EYE_THRESHOLD) :
    analyze_attention st (some f) t =
      analyzeTail ⟨none, postMovementTime st f t, some (postPosition f), 0⟩ t
        (f.ear.getD 1) ((f.nose_x.getD (1 / 2) - 1 / 2) * 60)
        ((f.nose_y.getD (1 / 2) - 1 / 2) * 40) := by
  obtain ⟨hb1, hb2, hb3, hb4⟩ := hb
  have h1 : ¬ (HEAD_TURN_THRESHOLD_YAW < |(f.nose_x.getD (1 / 2) - 1 / 2) * 60| ∨
      HEAD_TURN_THRESHOLD_PITCH < |(f.nose_y.getD (1 / 2) - 1 / 2) * 40|) := by
    push_neg
    exact ⟨hb1, hb2⟩
  have h2 : ¬ (GAZE_THRESHOLD < |f.nose_x.getD (1 / 2) - 1 / 2| ∨
      GAZE_THRESHOLD < |f.nose_y.getD (1 / 2) - 1 / 2|) := by
    push_neg
    exact ⟨hb3, hb4⟩
  have hear1 : ¬ (f.ear.getD 1 < DROWSY_EYE_THRESHOLD) := hear
  simp only [analyze_attention]
  rw [if_neg h1, if_neg h2, if_neg hear1]
  rfl

/-- On an in-bounds frame with EAR below the drowsy threshold,
`analyze_attention` keeps (or starts) the timer at
`st.eyes_closed_start.getD t` and reports DROWSY exactly when the closure
has lasted at least `DROWSY_TIME_THRESHOLD`. -/
theorem analyze_inbounds_closed (st : StudentState) (f : Frame) (t : ℚ)
    (hb : inBounds f) (hear : earOf f < DROWSY_EYE_THRESHOLD) :
    analyze_attention st (some f) t =
      if DROWSY_TIME_THRESHOLD ≤ t - st.eyes_closed_start.getD t then
        ⟨"drowsy", 95 / 100,
          { reason := "eyes_closed", duration := t - st.eyes_closed_start.getD t,
            ear := f.ear.getD 1 },
          ⟨some (st.eyes_closed_start.getD t), postMovementTime st f t,
            some (postPosition f), 0⟩⟩
      else
        analyzeTail ⟨some (st.eyes_closed_start.getD t), postMovementTime st f t,
            some (postPosition f), 0⟩ t
          (f.ear.getD 1) ((f.nose_x.getD (1 / 2) - 1 / 2) * 60)
          ((f.nose_y.getD (1 / 2) - 1 / 2) * 40) := by
  obtain ⟨hb1, hb2, hb3, hb4⟩ := hb
  have h1 : ¬ (HEAD_TURN_THRESHOLD_YAW < |(f.nose_x.getD (1 / 2) - 1 / 2) * 60| ∨
      HEAD_TURN_THRESHOLD_PITCH < |(f.nose_y.getD (1 / 2) - 1 / 2) * 40|) := by
    push_neg
    exact ⟨hb1, hb2⟩
  have h2 : ¬ (GAZE_THRESHOLD < |f.nose_x.getD (1 / 2) - 1 / 2| ∨
      GAZE_THRESHOLD < |f.nose_y.getD (1 / 2) - 1 / 2|) := by
    push_neg
    exact ⟨hb3, hb4⟩
  have hear1 : (f.ear.getD 1 < DROWSY_EYE_THRESHOLD) := hear
  obtain ⟨ecs, lmt, lp, cnf⟩ := st
  simp only [analyze_attention]
  rw [if_neg h1, if_neg h2, if_pos hear1]
  cases ecs <;> rfl

/-- C1.  The claim says that an ATTENTIVE classification arriving while a
alert of a participant is active makes the alert policy emit one clear event
and deactivate the alert.  The code has no such path: `generate_alert`
returns `None` on every `attentive` status without touching any state, so
no `clear_alert` message can ever reach supervisors and the
clear-alert branch of `student_websocket` is dead. -/
theorem generate_alert_attentive_returns_none (m : List (String × ℚ))
    (student_id student_name : String) (analysis : Analysis) (t : ℚ) :
    generate_alert m student_id student_name "attentive" analysis t = (none, m) := by
  simp [generate_alert]

/-- C9.  A participant join naming a code with no existing room is
accepted, receives a structured not-found error message, is closed with
the abnormal code 4004, and leaves the manager state untouched. -/
theorem unknown_room_join_rejected (fuel : ℕ) (st : ManagerState) (live : ℕ → Bool)
    (ws : ℕ) (room_id student_id sname : String) (now : ℚ)
    (h : room_exists st room_id = false) :
    student_endpoint_join fuel st live ws room_id student_id sname now =
      (st, [Event.accept ws,
            Event.send ws (Msg.errorMsg
              ("Room " ++ room_id ++ " does not exist. Please check the room code.")),
            Event.close ws 4004], false) := by
  simp [student_endpoint_join, h]

/-- Witness for C9: joining the never-created room "ZZZZZZ" on an empty
manager is rejected exactly as the theorem states. -/
theorem unknown_room_join_rejected_witness :
    room_exists emptyManager "ZZZZZZ" = false ∧
    student_endpoint_join 1 emptyManager (fun _ => true) 7 "ZZZZZZ" "s1" "Alice" 0 =
      (emptyManager, [Event.accept 7,
        Event.send 7 (Msg.errorMsg
          ("Room " ++ "ZZZZZZ" ++ " does not exist. Please check the room code.")),
        Event.close 7 4004], false) :=
  ⟨rfl, unknown_room_join_rejected 1 emptyManager (fun _ => true) 7 "ZZZZZZ" "s1" "Alice" 0 rfl⟩

/-- C3.  A status update naming a room or participant absent from the
registry leaves the stored snapshot untouched and produces no
`attention_update` broadcast — but, contrary to the claim, it is not
exception-free: building the broadcast payload reads
`rooms_students_info[room_id][student_id]` unguarded and raises
`KeyError`. -/
theorem update_missing_participant_raises (st : ManagerState) (live : ℕ → Bool)
    (room_id student_id : String) (status : Option String) (confidence now : ℚ)
    (h : (lookupL st.rooms_students_info room_id).bind
          (fun infos => lookupL infos student_id) = none) :
    update_student_attention st live room_id student_id status confidence now =
      PyResult.exn "KeyError" (st, []) := by
  cases hr : lookupL st.rooms_students_info room_id with
  | none => simp [update_student_attention, hr]
  | some infos =>
    rw [hr] at h
    simp only [Option.some_bind] at h
    simp [update_student_attention, hr, h]

/-- Witness for C3: updating an unregistered participant of an existing
room raises `KeyError` with no snapshot change and no event. -/
theorem update_missing_participant_raises_witness :
    (lookupL (ManagerState.rooms_students_info
        ⟨[("ROOM01", [])], [("ROOM01", [5])], [("ROOM01", [])], [(5, "ROOM01")], []⟩) "ROOM01").bind
      (fun infos => lookupL infos "ghost") = none ∧
    update_student_attention
        ⟨[("ROOM01", [])], [("ROOM01", [5])], [("ROOM01", [])], [(5, "ROOM01")], []⟩
        (fun _ => true) "ROOM01" "ghost" (some "drowsy") (9 / 10) 3 =
      PyResult.exn "KeyError"
        (⟨[("ROOM01", [])], [("ROOM01", [5])], [("ROOM01", [])], [(5, "ROOM01")], []⟩, []) :=
  ⟨rfl, update_missing_participant_raises _ (fun _ => true) "ROOM01" "ghost" (some "drowsy")
    (9 / 10) 3 rfl⟩

/-- C7.  A frame with head yaw beyond its threshold and EAR below the
drowsy threshold classifies as LOOKING_AWAY, never DROWSY, and the
in-progress eye-closure timer is reset. -/
theorem yaw_beyond_and_low_ear_gives_looking_away (st : StudentState) (f : Frame) (t : ℚ)
    (hyaw : HEAD_TURN_THRESHOLD_YAW < |(f.nose_x.getD (1 / 2) - 1 / 2) * 60|)
    (_hear : earOf f < DROWSY_EYE_THRESHOLD) :
    (analyze_attention st (some f) t).status = "looking_away" ∧
    (analyze_attention st (some f) t).status ≠ "drowsy" ∧
    (analyze_attention st (some f) t).state.eyes_closed_start = none := by
  simp only [analyze_attention]
  rw [if_pos (Or.inl hyaw)]
  exact ⟨rfl, (by decide : ("looking_away" : String) ≠ "drowsy"), rfl⟩

/-- Witness for C7: nose far right (yaw 27 degrees) with EAR 0.1 and a
running eye-closure timer yields LOOKING_AWAY and clears the timer. -/
theorem yaw_beyond_and_low_ear_gives_looking_away_witness :
    HEAD_TURN_THRESHOLD_YAW <
      |((Frame.mk (some (1 / 10)) (some (95 / 100)) (some (1 / 2))).nose_x.getD (1 / 2) - 1 / 2) * 60| ∧
    earOf (Frame.mk (some (1 / 10)) (some (95 / 100)) (some (1 / 2))) < DROWSY_EYE_THRESHOLD ∧
    ((analyze_attention ⟨some 0, 0, none, 0⟩
        (some (Frame.mk (some (1 / 10)) (some (95 / 100)) (some (1 / 2)))) 1).status = "looking_away" ∧
     (analyze_attention ⟨some 0, 0, none, 0⟩
        (some (Frame.mk (some (1 / 10)) (some (95 / 100)) (some (1 / 2)))) 1).status ≠ "drowsy" ∧
     (analyze_attention ⟨some 0, 0, none, 0⟩
        (some (Frame.mk (some (1 / 10)) (some (95 / 100)) (some (1 / 2)))) 1).state.eyes_closed_start
        = none) :=
  ⟨by with_unfolding_all decide, by with_unfolding_all decide,
    yaw_beyond_and_low_ear_gives_looking_away ⟨some 0, 0, none, 0⟩
      (Frame.mk (some (1 / 10)) (some (95 / 100)) (some (1 / 2))) 1
      (by with_unfolding_all decide) (by with_unfolding_all decide)⟩

/-- Counterexample to C4 as stated: a frame with head pose and gaze
within thresholds and open eyes is still classified non-ATTENTIVE
(LOOKING_AWAY, reason no_movement) purely because more than 60 seconds
passed without significant movement, so absence of movement does
determine the returned state. -/
theorem no_movement_determines_state_cex :
    inBounds (Frame.mk (some 1) (some (1 / 2)) (some (1 / 2))) ∧
    ¬ earOf (Frame.mk (some 1) (some (1 / 2)) (some (1 / 2))) < DROWSY_EYE_THRESHOLD ∧
    (analyze_attention ⟨none, 0, some (1 / 2, 1 / 2, 1), 0⟩
      (some (Frame.mk (some 1) (some (1 / 2)) (some (1 / 2)))) 61).status = "looking_away" ∧
    (analyze_attention ⟨none, 0, some (1 / 2, 1 / 2, 1), 0⟩
      (some (Frame.mk (some 1) (some (1 / 2)) (some (1 / 2)))) 61).analysis.reason
      = "no_movement" := by
  with_unfolding_all decide

/-- C4 as amended.  The movement signal is classifying: with pose and
gaze within thresholds and EAR not below the drowsy threshold, the frame
is classified LOOKING_AWAY with reason no_movement precisely when more
than `NO_MOVEMENT_THRESHOLD` seconds separate the frame from the last
significant movement (as updated by this frame); otherwise ATTENTIVE. -/
theorem no_movement_is_classifying (st : StudentState) (f : Frame) (t : ℚ)
    (hb : inBounds f) (hear : ¬ earOf f < DROWSY_EYE_THRESHOLD) :
    (NO_MOVEMENT_THRESHOLD < t - (analyze_attention st (some f) t).state.last_movement_time →
      (analyze_attention st (some f) t).status = "looking_away" ∧
      (analyze_attention st (some f) t).analysis.reason = "no_movement") ∧
    (¬ NO_MOVEMENT_THRESHOLD < t - (analyze_attention st (some f) t).state.last_movement_time →
      (analyze_attention st (some f) t).status = "attentive") := by
  rw [analyze_inbounds_open st f t hb hear]
  rw [analyzeTail_state, analyzeTail_status, analyzeTail_reason]
  by_cases hc : NO_MOVEMENT_THRESHOLD < t - postMovementTime st f t <;>
    simp [hc]

/-- Witness for C4 (amended): an unmoved frame 61 seconds after the last
movement classifies LOOKING_AWAY with reason no_movement. -/
theorem no_movement_is_classifying_witness :
    inBounds (Frame.mk (some 1) (some (1 / 2)) (some (1 / 2))) ∧
    ¬ earOf (Frame.mk (some 1) (some (1 / 2)) (some (1 / 2))) < DROWSY_EYE_THRESHOLD ∧
    ((NO_MOVEMENT_THRESHOLD < 61 -
        (analyze_attention ⟨none, 0, some (1 / 2, 1 / 2, 1), 0⟩
          (some (Frame.mk (some 1) (some (1 / 2)) (some (1 / 2)))) 61).state.last_movement_time →
      (analyze_attention ⟨none, 0, some (1 / 2, 1 / 2, 1), 0⟩
        (some (Frame.mk (some 1) (some (1 / 2)) (some (1 / 2)))) 61).status = "looking_away" ∧
      (analyze_attention ⟨none, 0, some (1 / 2, 1 / 2, 1), 0⟩
        (some (Frame.mk (some 1) (some (1 / 2)) (some (1 / 2)))) 61).analysis.reason
        = "no_movement") ∧
    (¬ NO_MOVEMENT_THRESHOLD < 61 -
        (analyze_attention ⟨none, 0, some (1 / 2, 1 / 2, 1), 0⟩
          (some (Frame.mk (some 1) (some (1 / 2)) (some (1 / 2)))) 61).state.last_movement_time →
      (analyze_attention ⟨none, 0, some (1 / 2, 1 / 2, 1), 0⟩
        (some (Frame.mk (some 1) (some (1 / 2)) (some (1 / 2)))) 61).status = "attentive")) :=
  ⟨by with_unfolding_all decide, by with_unfolding_all decide,
    no_movement_is_classifying ⟨none, 0, some (1 / 2, 1 / 2, 1), 0⟩
      (Frame.mk (some 1) (some (1 / 2)) (some (1 / 2))) 61
      (by with_unfolding_all decide) (by with_unfolding_all decide)⟩

theorem flatMap_live_of_all_live (live : ℕ → Bool) (studs : List (String × ℕ))
    (g : String × ℕ → List Event) (hlive : ∀ p ∈ studs, live p.2 = true) :
    (studs.flatMap fun p => if live p.2 then g p else []) = studs.flatMap g := by
  induction studs with
  | nil => rfl
  | cons hd tl ih =>
    have h1 : live hd.2 = true := hlive hd (List.mem_cons_self hd tl)
    have h2 : ∀ p ∈ tl, live p.2 = true := fun p hp => hlive p (List.mem_cons_of_mem hd hp)
    simp [List.flatMap_cons, h1, ih h2]

/-- C5.  Removing the last supervisor connection of a room sends every
joined participant a terminal `room_closed` notification followed by a
close with code 4003, purges all three room maps, and makes the room fail
the existence check. -/
theorem last_teacher_disconnect_closes_room (st : ManagerState) (live : ℕ → Bool)
    (ws : ℕ) (r : String) (studs : List (String × ℕ))
    (htr : lookupL st.teacher_rooms ws = some r)
    (hne : r ≠ "")
    (hts : lookupL st.rooms_teachers r = some [ws])
    (hstuds : lookupL st.rooms_students r = some studs)
    (hlive : ∀ p ∈ studs, live p.2 = true) :
    (disconnect_teacher st live ws).2 =
      (studs.flatMap fun p =>
        [Event.send p.2 (Msg.room_closed "Teacher ended the class"),
         Event.close p.2 4003]) ∧
    lookupL (disconnect_teacher st live ws).1.rooms_teachers r = none ∧
    lookupL (disconnect_teacher st live ws).1.rooms_students r = none ∧
    lookupL (disconnect_teacher st live ws).1.rooms_students_info r = none ∧
    room_exists (disconnect_teacher st live ws).1 r = false := by
  unfold disconnect_teacher
  simp only [htr, hts, hstuds, if_neg hne, List.mem_singleton, if_pos rfl,
    List.erase_cons_head, List.length_nil, Option.getD_some, if_true, eq_self_iff_true]
  refine ⟨flatMap_live_of_all_live live studs _ hlive, ?_, ?_, ?_, ?_⟩
  · exact lookupL_eraseL_self st.rooms_teachers r
  · exact lookupL_eraseL_self st.rooms_students r
  · exact lookupL_eraseL_self st.rooms_students_info r
  · unfold room_exists
    rw [lookupL_eraseL_self st.rooms_teachers r]

/-- Witness for C5: a room with one teacher (handle 1) and two live
students; the teacher disconnect emits `room_closed` and close-4003 to
both students, purges the room, and `room_exists` turns false. -/
theorem last_teacher_disconnect_closes_room_witness :
    lookupL (ManagerState.teacher_rooms
      ⟨[("R1", [("s1", 11), ("s2", 12)])], [("R1", [1])],
        [("R1", [])], [(1, "R1")], [(1, "T")]⟩) 1 = some "R1" ∧
    ("R1" : String) ≠ "" ∧
    (∀ p ∈ [("s1", 11), ("s2", 12)], (fun _ => true) (Prod.snd p) = true) ∧
    ((disconnect_teacher
        ⟨[("R1", [("s1", 11), ("s2", 12)])], [("R1", [1])],
          [("R1", [])], [(1, "R1")], [(1, "T")]⟩ (fun _ => true) 1).2 =
      ([("s1", 11), ("s2", 12)].flatMap fun p =>
        [Event.send p.2 (Msg.room_closed "Teacher ended the class"),
         Event.close p.2 4003]) ∧
     lookupL (disconnect_teacher
        ⟨[("R1", [("s1", 11), ("s2", 12)])], [("R1", [1])],
          [("R1", [])], [(1, "R1")], [(1, "T")]⟩ (fun _ => true) 1).1.rooms_teachers "R1"
        = none ∧
     lookupL (disconnect_teacher
        ⟨[("R1", [("s1", 11), ("s2", 12)])], [("R1", [1])],
          [("R1", [])], [(1, "R1")], [(1, "T")]⟩ (fun _ => true) 1).1.rooms_students "R1"
        = none ∧
     lookupL (disconnect_teacher
        ⟨[("R1", [("s1", 11), ("s2", 12)])], [("R1", [1])],
          [("R1", [])], [(1, "R1")], [(1, "T")]⟩ (fun _ => true) 1).1.rooms_students_info "R1"
        = none ∧
     room_exists (disconnect_teacher
        ⟨[("R1", [("s1", 11), ("s2", 12)])], [("R1", [1])],
          [("R1", [])], [(1, "R1")], [(1, "T")]⟩ (fun _ => true) 1).1 "R1" = false) :=
  ⟨rfl, by decide, by decide,
    last_teacher_disconnect_closes_room
      ⟨[("R1", [("s1", 11), ("s2", 12)])], [("R1", [1])],
        [("R1", [])], [(1, "R1")], [(1, "T")]⟩ (fun _ => true) 1 "R1"
      [("s1", 11), ("s2", 12)] rfl (by decide) rfl rfl (by decide)⟩

theorem filter_dead_eq_single (live : ℕ → Bool) (ts : List ℕ) (wd : ℕ)
    (hnd : ts.Nodup) (hmem : wd ∈ ts) (hdead : live wd = false)
    (hrest : ∀ w ∈ ts, w ≠ wd → live w = true) :
    ts.filter (fun w => !live w) = [wd] := by
  induction ts with
  | nil => cases hmem
  | cons hd tl ih =>
    rcases List.mem_cons.mp hmem with heq | htl
    · subst heq
      have hnotin : wd ∉ tl := (List.nodup_cons.mp hnd).1
      have htail : tl.filter (fun w => !live w) = [] := by
        refine List.filter_eq_nil_iff.mpr fun w hw => ?_
        have hwne : w ≠ wd := fun hcon => hnotin (hcon ▸ hw)
        simp [hrest w (List.mem_cons_of_mem wd hw) hwne]
      simp [List.filter_cons, hdead, htail]
    · have hhdne : hd ≠ wd := by
        intro hcon
        exact (List.nodup_cons.mp hnd).1 (hcon ▸ htl)
      have hhdlive : live hd = true := hrest hd (List.mem_cons_self hd tl) hhdne
      have := ih (List.nodup_cons.mp hnd).2 htl
        (fun w hw hwne => hrest w (List.mem_cons_of_mem hd hw) hwne)
      simp [List.filter_cons, hhdlive, this]

/-- A teacher disconnect that leaves other teachers in the room removes
exactly that teacher from the room list, emits no event, and purges only
the teacher-to-room and teacher-name entries of that connection. -/
theorem disconnect_teacher_nonlast (st : ManagerState) (live : ℕ → Bool) (wd : ℕ)
    (r : String) (ts : List ℕ)
    (htr : lookupL st.teacher_rooms wd = some r) (hne : r ≠ "")
    (hts : lookupL st.rooms_teachers r = some ts) (hmem : wd ∈ ts)
    (hlen : ts.erase wd ≠ []) :
    disconnect_teacher st live wd =
      ({ st with rooms_teachers := insertL st.rooms_teachers r (ts.erase wd),
                 teacher_rooms := eraseL st.teacher_rooms wd,
                 teacher_names := eraseL st.teacher_names wd }, []) := by
  have hlen0 : ¬ ((ts.erase wd).length = 0) := by
    intro hcon
    exact hlen (List.length_eq_zero.mp hcon)
  unfold disconnect_teacher
  simp only [htr, hts, if_neg hne, if_pos hmem, if_neg hlen0]

/-- C8.  Broadcasting to a room whose supervisor list contains exactly one
severed connection still delivers the message to every live supervisor,
runs the severed connection through the explicit-disconnect cleanup path,
and removes exactly that connection from the supervisor list of the room. -/
theorem broadcast_isolates_failed_teacher (st : ManagerState) (live : ℕ → Bool)
    (r : String) (m : Msg) (ts : List ℕ) (wd : ℕ)
    (hts : lookupL st.rooms_teachers r = some ts)
    (hnd : ts.Nodup) (hmem : wd ∈ ts) (hdead : live wd = false)
    (hrest : ∀ w ∈ ts, w ≠ wd → live w = true)
    (htr : lookupL st.teacher_rooms wd = some r) (hne : r ≠ "")
    (hlen : 2 ≤ ts.length) :
    broadcast_to_room_teachers st live r m =
      ((disconnect_teacher st live wd).1,
        (ts.filter fun w => live w).map fun w => Event.send w m) ∧
    lookupL (broadcast_to_room_teachers st live r m).1.rooms_teachers r
      = some (ts.erase wd) := by
  have hlenerase : (ts.erase wd).length = ts.length - 1 := List.length_erase_of_mem hmem
  have hlen1 : ts.erase wd ≠ [] := by
    intro hcon
    rw [hcon] at hlenerase
    simp at hlenerase
    omega
  have hdisc := disconnect_teacher_nonlast st live wd r ts htr hne hts hmem hlen1
  have hfilter : ts.filter (fun w => !live w) = [wd] :=
    filter_dead_eq_single live ts wd hnd hmem hdead hrest
  have hmain : broadcast_to_room_teachers st live r m =
      ((disconnect_teacher st live wd).1,
        (ts.filter fun w => live w).map fun w => Event.send w m) := by
    unfold broadcast_to_room_teachers
    simp only [hts, hfilter, List.foldl_cons, List.foldl_nil, List.nil_append]
    rw [hdisc]
    simp
  refine ⟨hmain, ?_⟩
  rw [hmain]
  simp only [hdisc]
  exact lookupL_insertL_self st.rooms_teachers r (ts.erase wd)

/-- Witness for C8: three supervisors 1, 2, 3 in room "R2" with
connection 2 severed; the broadcast reaches 1 and 3 and the supervisor
list becomes [1, 3]. -/
theorem broadcast_isolates_failed_teacher_witness :
    lookupL (ManagerState.rooms_teachers
      ⟨[("R2", [])], [("R2", [1, 2, 3])], [("R2", [])],
        [(1, "R2"), (2, "R2"), (3, "R2")], []⟩) "R2" = some [1, 2, 3] ∧
    ([1, 2, 3] : List ℕ).Nodup ∧ (2 : ℕ) ∈ [1, 2, 3] ∧
    (fun w => decide (w ≠ 2)) 2 = false ∧
    (∀ w ∈ [1, 2, 3], w ≠ 2 → (fun w => decide (w ≠ 2)) w = true) ∧
    (broadcast_to_room_teachers
        ⟨[("R2", [])], [("R2", [1, 2, 3])], [("R2", [])],
          [(1, "R2"), (2, "R2"), (3, "R2")], []⟩ (fun w => decide (w ≠ 2)) "R2"
        (Msg.other "hello") =
      ((disconnect_teacher
          ⟨[("R2", [])], [("R2", [1, 2, 3])], [("R2", [])],
            [(1, "R2"), (2, "R2"), (3, "R2")], []⟩ (fun w => decide (w ≠ 2)) 2).1,
        (([1, 2, 3] : List ℕ).filter fun w => (fun w => decide (w ≠ 2)) w).map
          fun w => Event.send w (Msg.other "hello")) ∧
     lookupL (broadcast_to_room_teachers
        ⟨[("R2", [])], [("R2", [1, 2, 3])], [("R2", [])],
          [(1, "R2"), (2, "R2"), (3, "R2")], []⟩ (fun w => decide (w ≠ 2)) "R2"
        (Msg.other "hello")).1.rooms_teachers "R2" = some (([1, 2, 3] : List ℕ).erase 2)) :=
  ⟨rfl, by decide, by decide, by decide, by decide,
    broadcast_isolates_failed_teacher
      ⟨[("R2", [])], [("R2", [1, 2, 3])], [("R2", [])],
        [(1, "R2"), (2, "R2"), (3, "R2")], []⟩ (fun w => decide (w ≠ 2)) "R2"
      (Msg.other "hello") [1, 2, 3] 2 rfl (by decide) (by decide) (by decide)
      (by decide) (by decide) (by decide) (by decide)⟩

theorem candidateCode_length (seed : ℕ → Fin 36) (k : ℕ) :
    (candidateCode seed k).length = 6 := by
  simp [candidateCode, String.length]

theorem candidateCode_alphabet (seed : ℕ → Fin 36) (k : ℕ) :
    ∀ ch ∈ (candidateCode seed k).data, ch ∈ codeAlphabet := by
  intro ch hch
  simp only [candidateCode, List.mem_map] at hch
  obtain ⟨j, _, hj⟩ := hch
  rw [← hj]
  exact List.get_mem codeAlphabet _ _

theorem genLoop_is_candidate (rooms : List (String × List ℕ)) (seed : ℕ → Fin 36) :
    ∀ fuel k, ∃ j, genLoop rooms seed k fuel = candidateCode seed j := by
  intro fuel
  induction fuel with
  | zero => exact fun k => ⟨k, rfl⟩
  | succ fuel ih =>
    intro k
    by_cases hc : (lookupL rooms (candidateCode seed k)).isSome
    · obtain ⟨j, hj⟩ := ih (k + 1)
      exact ⟨j, by simp [genLoop, hc, hj]⟩
    · exact ⟨k, by simp [genLoop, hc]⟩

theorem genLoop_fresh (rooms : List (String × List ℕ)) (seed : ℕ → Fin 36) :
    ∀ fuel k, (∃ j, j < fuel ∧ lookupL rooms (candidateCode seed (k + j)) = none) →
      lookupL rooms (genLoop rooms seed k fuel) = none := by
  intro fuel
  induction fuel with
  | zero =>
    intro k h
    obtain ⟨j, hj, _⟩ := h
    omega
  | succ fuel ih =>
    intro k h
    by_cases hc : (lookupL rooms (candidateCode seed k)).isSome
    · obtain ⟨j, hj, hfresh⟩ := h
      cases j with
      | zero =>
        rw [Nat.add_zero] at hfresh
        rw [hfresh] at hc
        simp at hc
      | succ j =>
        have hstep : k + (j + 1) = (k + 1) + j := by omega
        rw [hstep] at hfresh
        have := ih (k + 1) ⟨j, by omega, hfresh⟩
        simpa [genLoop, hc] using this
    · have hnone : lookupL rooms (candidateCode seed k) = none :=
        Option.not_isSome_iff_eq_none.mp hc
      simpa [genLoop, hc] using hnone

/-- C2.  A supervisor connecting without a room code (or with a code that
names no existing room) takes the create-new-room branch: a fresh
6-character code over uppercase letters and digits is drawn from the
random source and checked against active codes, the three room maps are
installed — and then the handler writes `manager.room_ids`, an attribute
`ConnectionManager` never defines, so it raises `AttributeError` before
the `room_created` message is ever sent.  The claimed `room_created`
delivery cannot happen. -/
theorem teacher_create_path_raises (st : ManagerState) (room_id : Option String)
    (tname : String) (ws : ℕ) (seed : ℕ → Fin 36) (fuel : ℕ)
    (h : ∀ r, room_id = some r → r = "" ∨ lookupL st.rooms_teachers r = none) :
    teacher_endpoint_connect st room_id tname ws seed fuel =
      PyResult.exn "AttributeError"
        ({ st with
            rooms_teachers :=
              insertL st.rooms_teachers (generate_room_id st seed fuel) [ws],
            rooms_students :=
              insertL st.rooms_students (generate_room_id st seed fuel) [],
            rooms_students_info :=
              insertL st.rooms_students_info (generate_room_id st seed fuel) [] },
         [Event.accept ws]) ∧
    (generate_room_id st seed fuel).length = 6 ∧
    (∀ ch ∈ (generate_room_id st seed fuel).data, ch ∈ codeAlphabet) ∧
    ((∃ j, j < fuel ∧ lookupL st.rooms_teachers (candidateCode seed j) = none) →
      lookupL st.rooms_teachers (generate_room_id st seed fuel) = none) := by
  obtain ⟨j, hj⟩ := genLoop_is_candidate st.rooms_teachers seed fuel 0
  refine ⟨?_, ?_, ?_, ?_⟩
  · cases room_id with
    | none => rfl
    | some r =>
      rcases h r rfl with hempty | hnone
      · subst hempty
        simp [teacher_endpoint_connect, teacherCreateRoomBranch]
      · have hcond : ¬ (r ≠ "" ∧ (lookupL st.rooms_teachers r).isSome = true) := by
          intro hcon
          rw [hnone] at hcon
          simp at hcon
        simp [teacher_endpoint_connect, hcond, teacherCreateRoomBranch]
  · rw [generate_room_id, hj]
    exact candidateCode_length seed j
  · rw [generate_room_id, hj]
    exact candidateCode_alphabet seed j
  · intro hex
    refine genLoop_fresh st.rooms_teachers seed fuel 0 ?_
    obtain ⟨j1, hj1, hf1⟩ := hex
    exact ⟨j1, hj1, by simpa using hf1⟩

/-- Witness for C2: a supervisor connecting with no room code on an empty
manager hits the `AttributeError` create branch, with a 6-character
alphabet-only generated code that is fresh. -/
theorem teacher_create_path_raises_witness :
    (∀ r : String, (none : Option String) = some r →
      r = "" ∨ lookupL emptyManager.rooms_teachers r = none) ∧
    (teacher_endpoint_connect emptyManager none "T" 9 (fun _ => (0 : Fin 36)) 1 =
        PyResult.exn "AttributeError"
          ({ emptyManager with
              rooms_teachers := insertL emptyManager.rooms_teachers
                (generate_room_id emptyManager (fun _ => (0 : Fin 36)) 1) [9],
              rooms_students := insertL emptyManager.rooms_students
                (generate_room_id emptyManager (fun _ => (0 : Fin 36)) 1) [],
              rooms_students_info := insertL emptyManager.rooms_students_info
                (generate_room_id emptyManager (fun _ => (0 : Fin 36)) 1) [] },
           [Event.accept 9]) ∧
      (generate_room_id emptyManager (fun _ => (0 : Fin 36)) 1).length = 6 ∧
      (∀ ch ∈ (generate_room_id emptyManager (fun _ => (0 : Fin 36)) 1).data,
        ch ∈ codeAlphabet) ∧
      ((∃ j, j < 1 ∧ lookupL emptyManager.rooms_teachers
          (candidateCode (fun _ => (0 : Fin 36)) j) = none) →
        lookupL emptyManager.rooms_teachers
          (generate_room_id emptyManager (fun _ => (0 : Fin 36)) 1) = none)) :=
  ⟨fun _ hr => Option.noConfusion hr,
    teacher_create_path_raises emptyManager none "T" 9 (fun _ => (0 : Fin 36)) 1
      (fun _ hr => Option.noConfusion hr)⟩

theorem alert_key_inj (p s s1 : String) (h : p ++ "_" ++ s = p ++ "_" ++ s1) : s = s1 := by
  have hd := congrArg String.data h
  simp only [String.data_append] at hd
  exact String.ext (List.append_cancel_left hd)

/-- Any `generate_alert` call whose key is on cooldown (or whose status is
`attentive`) returns no alert and leaves the map unchanged. -/
theorem generate_alert_cooldown_none (m : List (String × ℚ)) (p n s : String)
    (an : Analysis) (t t0 : ℚ)
    (hkey : lookupL m (p ++ "_" ++ s) = some t0)
    (ht : t - t0 < ALERT_COOLDOWN) :
    generate_alert m p n s an t = (none, m) := by
  by_cases hs : s = "attentive"
  · simp [generate_alert, hs]
  · simp [generate_alert, hs, hkey, ht]

/-- A `generate_alert` call made while `key` is on cooldown never
modifies the entry stored at `key`, whatever participant and status the
call is for. -/
theorem generate_alert_preserves_key (m : List (String × ℚ)) (key : String) (t0 : ℚ)
    (c : AlertCall)
    (hkey : lookupL m key = some t0)
    (ht : c.time - t0 < ALERT_COOLDOWN) :
    lookupL (generate_alert m c.sid c.sname c.status c.analysis c.time).2 key = some t0 := by
  by_cases hs : c.status = "attentive"
  · simpa [generate_alert, hs] using hkey
  · by_cases hk : c.sid ++ "_" ++ c.status = key
    · subst hk
      simp [generate_alert, hs, hkey, ht]
    · cases hlook : lookupL m (c.sid ++ "_" ++ c.status) with
      | some t1 =>
        by_cases hcool : c.time - t1 < ALERT_COOLDOWN
        · simpa [generate_alert, hs, hlook, hcool] using hkey
        · simp [generate_alert, hs, hlook, hcool, emitAlert]
          rw [lookupL_insertL_ne _ _ _ _ (fun hcon => hk hcon.symm)]
          exact hkey
      | none =>
        simp [generate_alert, hs, hlook, emitAlert]
        rw [lookupL_insertL_ne _ _ _ _ (fun hcon => hk hcon.symm)]
        exact hkey

/-- C10.  Once an alert with key `p_s` has been recorded at time `t0`,
every `generate_alert` call for `(p, s)` within the next
`ALERT_COOLDOWN` seconds yields no alert, regardless of the interleaved
calls for other participants, other statuses, or ATTENTIVE
classifications (which never touch the map); and an alert of a different
non-attentive status for the same participant uses an independent key, so
it is emitted immediately and leaves the `p_s` entry intact. -/
theorem alert_cooldown_throttles_per_key (m : List (String × ℚ)) (p s : String) (t0 : ℚ)
    (hkey : lookupL m (p ++ "_" ++ s) = some t0)
    (calls : List AlertCall)
    (htimes : ∀ c ∈ calls, c.time < t0 + ALERT_COOLDOWN) :
    (∀ i c, calls.get? i = some c → c.sid = p → c.status = s →
      (runAlerts m calls).1.get? i = some none) ∧
    (∀ (n : String) (an : Analysis) (t1 : ℚ) (s1 : String),
      s1 ≠ "attentive" → s1 ≠ s → lookupL m (p ++ "_" ++ s1) = none →
      (generate_alert m p n s1 an t1).1.isSome = true ∧
      lookupL (generate_alert m p n s1 an t1).2 (p ++ "_" ++ s) = some t0) := by
  constructor
  · induction calls generalizing m with
    | nil =>
      intro i c hc
      simp [List.get?] at hc
    | cons hd tl ih =>
      intro i c hc hsid hstat
      have hhdtime : hd.time - t0 < ALERT_COOLDOWN := by
        have := htimes hd (List.mem_cons_self hd tl)
        linarith
      cases i with
      | zero =>
        simp only [List.get?] at hc
        injection hc with hc
        subst hc
        have hkeyhd : lookupL m (hd.sid ++ "_" ++ hd.status) = some t0 := by
          rw [hsid, hstat]
          exact hkey
        have hnone := generate_alert_cooldown_none m hd.sid hd.sname hd.status hd.analysis
          hd.time t0 hkeyhd hhdtime
        simp [runAlerts, hnone]
      | succ i =>
        have hkey1 := generate_alert_preserves_key m (p ++ "_" ++ s) t0 hd hkey hhdtime
        have htl : ∀ c1 ∈ tl, c1.time < t0 + ALERT_COOLDOWN :=
          fun c1 hc1 => htimes c1 (List.mem_cons_of_mem hd hc1)
        have := ih _ hkey1 htl i c (by simpa [List.get?] using hc) hsid hstat
        simpa [runAlerts, List.get?] using this
  · intro n an t1 s1 hs1att hs1ne hlook
    have hkne : p ++ "_" ++ s ≠ p ++ "_" ++ s1 :=
      fun hcon => hs1ne (alert_key_inj p s s1 hcon).symm
    constructor
    · simp [generate_alert, hs1att, hlook, emitAlert]
    · simp only [generate_alert, hs1att, hlook, emitAlert, if_neg]
      simp [hs1att]
      rw [lookupL_insertL_ne _ _ _ _ hkne]
      exact hkey

/-- Witness for C10: after a drowsy alert for "s1" at time 0, an
attentive call at 3 and a drowsy call at 5 both yield no alert, while a
looking_away alert for "s1" at time 1 fires immediately and keeps the
drowsy cooldown entry. -/
theorem alert_cooldown_throttles_per_key_witness :
    lookupL [("s1_drowsy", (0 : ℚ))] ("s1" ++ "_" ++ "drowsy") = some 0 ∧
    (∀ c ∈ [AlertCall.mk "s1" "A" "attentive" {} 3, AlertCall.mk "s1" "A" "drowsy" {} 5],
      c.time < 0 + ALERT_COOLDOWN) ∧
    ((∀ i c, [AlertCall.mk "s1" "A" "attentive" {} 3,
        AlertCall.mk "s1" "A" "drowsy" {} 5].get? i = some c →
        c.sid = "s1" → c.status = "drowsy" →
        (runAlerts [("s1_drowsy", (0 : ℚ))]
          [AlertCall.mk "s1" "A" "attentive" {} 3,
           AlertCall.mk "s1" "A" "drowsy" {} 5]).1.get? i = some none) ∧
     (∀ (n : String) (an : Analysis) (t1 : ℚ) (s1 : String),
        s1 ≠ "attentive" → s1 ≠ "drowsy" →
        lookupL [("s1_drowsy", (0 : ℚ))] ("s1" ++ "_" ++ s1) = none →
        (generate_alert [("s1_drowsy", (0 : ℚ))] "s1" n s1 an t1).1.isSome = true ∧
        lookupL (generate_alert [("s1_drowsy", (0 : ℚ))] "s1" n s1 an t1).2
          ("s1" ++ "_" ++ "drowsy") = some 0)) :=
  ⟨by with_unfolding_all decide, by with_unfolding_all decide,
    alert_cooldown_throttles_per_key [("s1_drowsy", (0 : ℚ))] "s1" "drowsy" 0
      (by with_unfolding_all decide)
      [AlertCall.mk "s1" "A" "attentive" {} 3, AlertCall.mk "s1" "A" "drowsy" {} 5]
      (by with_unfolding_all decide)⟩

/-- On an in-bounds frame the stored eye-closure timer after the call is
`some` of the current run start (kept, or started at this frame) when EAR
is sub-threshold, and cleared otherwise. -/
theorem step_timer (st : StudentState) (f : Frame) (t : ℚ) (hb : inBounds f) :
    (analyze_attention st (some f) t).state.eyes_closed_start =
      if earOf f < DROWSY_EYE_THRESHOLD then some (st.eyes_closed_start.getD t)
      else none := by
  by_cases he : earOf f < DROWSY_EYE_THRESHOLD
  · rw [analyze_inbounds_closed st f t hb he, if_pos he]
    by_cases hd : DROWSY_TIME_THRESHOLD ≤ t - st.eyes_closed_start.getD t
    · rw [if_pos hd]
    · rw [if_neg hd, analyzeTail_state]
  · rw [analyze_inbounds_open st f t hb he, analyzeTail_state, if_neg he]

/-- On an in-bounds frame the call reports DROWSY exactly when EAR is
sub-threshold and the closure (measured from the stored or just-started
timer) has lasted at least `DROWSY_TIME_THRESHOLD`. -/
theorem step_drowsy_iff (st : StudentState) (f : Frame) (t : ℚ) (hb : inBounds f) :
    ((analyze_attention st (some f) t).status = "drowsy" ↔
      earOf f < DROWSY_EYE_THRESHOLD ∧
        DROWSY_TIME_THRESHOLD ≤ t - st.eyes_closed_start.getD t) := by
  by_cases he : earOf f < DROWSY_EYE_THRESHOLD
  · rw [analyze_inbounds_closed st f t hb he]
    by_cases hd : DROWSY_TIME_THRESHOLD ≤ t - st.eyes_closed_start.getD t
    · simp [hd, he]
    · rw [if_neg hd, analyzeTail_status]
      constructor
      · intro hcon
        by_cases hm : NO_MOVEMENT_THRESHOLD <
            t - (⟨some (st.eyes_closed_start.getD t), postMovementTime st f t,
              some (postPosition f), 0⟩ : StudentState).last_movement_time
        · rw [if_pos hm] at hcon
          exact absurd hcon (by decide)
        · rw [if_neg hm] at hcon
          exact absurd hcon (by decide)
      · intro hcon
        exact absurd hcon.2 hd
  · rw [analyze_inbounds_open st f t hb he, analyzeTail_status]
    constructor
    · intro hcon
      by_cases hm : NO_MOVEMENT_THRESHOLD <
          t - (⟨none, postMovementTime st f t, some (postPosition f), 0⟩
            : StudentState).last_movement_time
      · rw [if_pos hm] at hcon
        exact absurd hcon (by decide)
      · rw [if_neg hm] at hcon
        exact absurd hcon (by decide)
    · intro hcon
      exact absurd hcon.1 he

/-- Along an in-bounds stream started with a clear timer, the stored
timer before frame `i` is the specification-side `runTimer`. -/
theorem timer_after (fr : ℕ → Frame) (ts : ℕ → ℚ) (st0 : StudentState)
    (h0 : st0.eyes_closed_start = none) :
    ∀ i, (∀ k, k < i → inBounds (fr k)) →
      (stateAfterA fr ts st0 i).eyes_closed_start = runTimer fr ts i := by
  intro i
  induction i with
  | zero => intro _; exact h0
  | succ i ih =>
    intro hb
    have hbi : inBounds (fr i) := hb i (Nat.lt_succ_self i)
    have hih := ih fun k hk => hb k (Nat.lt_succ_of_lt hk)
    show (analyze_attention (stateAfterA fr ts st0 i) (some (fr i)) (ts i)).state.eyes_closed_start
      = runTimer fr ts (i + 1)
    rw [step_timer _ _ _ hbi, hih]
    rfl

theorem runTimer_none_iff (fr : ℕ → Frame) (ts : ℕ → ℚ) (i : ℕ) :
    runTimer fr ts i = none ↔ (i = 0 ∨ ¬ earOf (fr (i - 1)) < DROWSY_EYE_THRESHOLD) := by
  cases i with
  | zero => simp [runTimer]
  | succ i =>
    by_cases he : earOf (fr i) < DROWSY_EYE_THRESHOLD <;>
      simp [runTimer, he]

theorem run_start_unique (P : ℕ → Prop) (n j j1 : ℕ) (hjn : j < n) (hj1n : j1 < n)
    (hrun : ∀ k, j ≤ k → k < n → P k) (hrun1 : ∀ k, j1 ≤ k → k < n → P k)
    (hb : j = 0 ∨ ¬ P (j - 1)) (hb1 : j1 = 0 ∨ ¬ P (j1 - 1)) : j = j1 := by
  rcases Nat.lt_trichotomy j j1 with hlt | heq | hgt
  · exfalso
    rcases hb1 with h0 | hnp
    · omega
    · exact hnp (hrun (j1 - 1) (by omega) (by omega))
  · exact heq
  · exfalso
    rcases hb with h0 | hnp
    · omega
    · exact hnp (hrun1 (j - 1) (by omega) (by omega))

theorem runTimer_some_iff (fr : ℕ → Frame) (ts : ℕ → ℚ) :
    ∀ i s, (runTimer fr ts i = some s ↔
      ∃ j, j < i ∧ s = ts j ∧
        (∀ k, j ≤ k → k < i → earOf (fr k) < DROWSY_EYE_THRESHOLD) ∧
        (j = 0 ∨ ¬ earOf (fr (j - 1)) < DROWSY_EYE_THRESHOLD)) := by
  intro i
  induction i with
  | zero =>
    intro s
    simp [runTimer]
  | succ i ih =>
    intro s
    by_cases hei : earOf (fr i) < DROWSY_EYE_THRESHOLD
    · rw [runTimer, if_pos hei]
      cases hprev : runTimer fr ts i with
      | none =>
        rcases (runTimer_none_iff fr ts i).mp hprev with hz | hopen
        · subst hz
          simp only [Option.getD_none, Option.some_inj]
          constructor
          · intro hs
            refine ⟨0, Nat.lt_succ_self 0, hs.symm, fun k hk hk1 => ?_, Or.inl rfl⟩
            have hk0 : k = 0 := by omega
            subst hk0
            exact hei
          · rintro ⟨j, hj, hs, _, _⟩
            interval_cases j
            exact hs.symm
        · simp only [Option.getD_none, Option.some_inj]
          constructor
          · intro hs
            refine ⟨i, Nat.lt_succ_self i, hs.symm, fun k hk hk1 => ?_, Or.inr hopen⟩
            have : k = i := by omega
            subst this
            exact hei
          · rintro ⟨j, hj, hs, hrun, hbdry⟩
            have hji : j = i := by
              by_contra hne
              have hjlt : j < i := by omega
              have : runTimer fr ts i = some (ts j) := by
                refine (ih (ts j)).mpr ⟨j, hjlt, rfl, fun k hk hk1 => hrun k hk (by omega),
                  hbdry⟩
              rw [this] at hprev
              cases hprev
            subst hji
            exact hs.symm
      | some s1 =>
        obtain ⟨j1, hj1, hs1, hrun1, hbdry1⟩ := (ih s1).mp hprev
        simp only [Option.getD_some, Option.some_inj]
        constructor
        · intro hs
          refine ⟨j1, by omega, hs.symm.trans hs1, fun k hk hk1 => ?_, hbdry1⟩
          by_cases hki : k = i
          · subst hki
            exact hei
          · exact hrun1 k hk (by omega)
        · rintro ⟨j, hj, hs, hrun, hbdry⟩
          have hjj1 : j = j1 := by
            refine run_start_unique (fun k => earOf (fr k) < DROWSY_EYE_THRESHOLD)
              (i + 1) j j1 hj (by omega) hrun (fun k hk hk1 => ?_) hbdry hbdry1
            by_cases hki : k = i
            · subst hki
              exact hei
            · exact hrun1 k hk (by omega)
          rw [hs, hjj1, ← hs1]
    · rw [runTimer, if_neg hei]
      constructor
      · intro hcon
        cases hcon
      · rintro ⟨j, hj, hs, hrun, hbdry⟩
        exact absurd (hrun i (by omega) (by omega)) hei

/-- C6.  Along any frame stream whose head pose and gaze stay within
thresholds (starting from a clear eye-closure timer), the status reported
for frame `i` is DROWSY exactly when there is a contiguous run of
sub-threshold-EAR frames starting at some frame `j` (the first frame of
the run) and ending at `i` whose elapsed time reaches
`DROWSY_TIME_THRESHOLD`; and whenever EAR recovers to or above the
threshold the stored eye-closure timer is cleared. -/
theorem drowsy_iff_continuous_closure (fr : ℕ → Frame) (ts : ℕ → ℚ) (st0 : StudentState)
    (h0 : st0.eyes_closed_start = none) (i : ℕ)
    (hb : ∀ k, k ≤ i → inBounds (fr k)) :
    (statusAtA fr ts st0 i = "drowsy" ↔
      ∃ j, j ≤ i ∧
        (∀ k, j ≤ k → k ≤ i → earOf (fr k) < DROWSY_EYE_THRESHOLD) ∧
        (j = 0 ∨ ¬ earOf (fr (j - 1)) < DROWSY_EYE_THRESHOLD) ∧
        DROWSY_TIME_THRESHOLD ≤ ts i - ts j) ∧
    (¬ earOf (fr i) < DROWSY_EYE_THRESHOLD →
      (stateAfterA fr ts st0 (i + 1)).eyes_closed_start = none) := by
  have hbi : inBounds (fr i) := hb i le_rfl
  have htimer := timer_after fr ts st0 h0 i fun k hk => hb k (le_of_lt hk)
  have hTpos : ¬ DROWSY_TIME_THRESHOLD ≤ 0 := by
    rw [DROWSY_TIME_THRESHOLD]
    norm_num
  constructor
  · rw [statusAtA, step_drowsy_iff _ _ _ hbi, htimer]
    cases hprev : runTimer fr ts i with
    | none =>
      rcases (runTimer_none_iff fr ts i).mp hprev with hz | hopen
      · subst hz
        simp only [Option.getD_none]
        constructor
        · rintro ⟨_, hT⟩
          exact absurd (by simpa using hT) hTpos
        · rintro ⟨j, hj, _, _, hT⟩
          interval_cases j
          exact absurd (by simpa using hT) hTpos
      · simp only [Option.getD_none]
        constructor
        · rintro ⟨_, hT⟩
          exact absurd (by simpa using hT) hTpos
        · rintro ⟨j, hj, hrun, hbdry, hT⟩
          have hji : j = i := by
            by_contra hne
            exact hopen (hrun (i - 1) (by omega) (by omega))
          subst hji
          exact absurd (by simpa using hT) hTpos
    | some s =>
      obtain ⟨j1, hj1, hs1, hrun1, hbdry1⟩ := (runTimer_some_iff fr ts i s).mp hprev
      simp only [Option.getD_some]
      constructor
      · rintro ⟨hei, hT⟩
        refine ⟨j1, by omega, fun k hk hk1 => ?_, hbdry1, by rw [← hs1]; exact hT⟩
        by_cases hki : k = i
        · subst hki
          exact hei
        · exact hrun1 k hk (by omega)
      · rintro ⟨j, hj, hrun, hbdry, hT⟩
        have hei : earOf (fr i) < DROWSY_EYE_THRESHOLD := hrun i hj le_rfl
        have hjj1 : j = j1 := by
          refine run_start_unique (fun k => earOf (fr k) < DROWSY_EYE_THRESHOLD)
            (i + 1) j j1 (by omega) (by omega) (fun k hk hk1 => hrun k hk (by omega))
            (fun k hk hk1 => ?_) hbdry hbdry1
          by_cases hki : k = i
          · subst hki
            exact hei
          · exact hrun1 k hk (by omega)
        exact ⟨hei, by rw [hs1, ← hjj1]; exact hT⟩
  · intro he
    show (analyze_attention (stateAfterA fr ts st0 i) (some (fr i)) (ts i)).state.eyes_closed_start
      = none
    rw [step_timer _ _ _ hbi, if_neg he]

/-- Witness for C6: eyes closed (EAR 0.1) on every frame, frames one
second apart; at frame 3 the closure has lasted 3 s and the
characterization applies. -/
theorem drowsy_iff_continuous_closure_witness :
    (initState 0).eyes_closed_start = none ∧
    (∀ k : ℕ, k ≤ 3 → inBounds (Frame.mk (some (1 / 10)) (some (1 / 2)) (some (1 / 2)))) ∧
    ((statusAtA (fun _ => Frame.mk (some (1 / 10)) (some (1 / 2)) (some (1 / 2)))
        (fun k => (k : ℚ)) (initState 0) 3 = "drowsy" ↔
      ∃ j : ℕ, j ≤ 3 ∧
        (∀ k : ℕ, j ≤ k → k ≤ 3 →
          earOf (Frame.mk (some (1 / 10)) (some (1 / 2)) (some (1 / 2)))
            < DROWSY_EYE_THRESHOLD) ∧
        (j = 0 ∨ ¬ earOf (Frame.mk (some (1 / 10)) (some (1 / 2)) (some (1 / 2)))
            < DROWSY_EYE_THRESHOLD) ∧
        DROWSY_TIME_THRESHOLD ≤ ((3 : ℕ) : ℚ) - (j : ℚ)) ∧
     (¬ earOf (Frame.mk (some (1 / 10)) (some (1 / 2)) (some (1 / 2)))
          < DROWSY_EYE_THRESHOLD →
        (stateAfterA (fun _ => Frame.mk (some (1 / 10)) (some (1 / 2)) (some (1 / 2)))
          (fun k => (k : ℚ)) (initState 0) 4).eyes_closed_start = none)) :=
  ⟨rfl, fun k _ => by with_unfolding_all decide,
    drowsy_iff_continuous_closure
      (fun _ => Frame.mk (some (1 / 10)) (some (1 / 2)) (some (1 / 2)))
      (fun k => (k : ℚ)) (initState 0) rfl 3
      (fun k _ =>
        (by with_unfolding_all decide :
          inBounds (Frame.mk (some (1 / 10)) (some (1 / 2)) (some (1 / 2)))))⟩

end Feedback
